import Mathlib

/-!
Formal model of the SIH2025 train traffic control core.

The definitions below are a shallow embedding of `src/models.py`,
`src/config.py` and `src/optimization.py`:

* Python `datetime` values are modelled as natural numbers (seconds since an
  epoch); only their ordering and differences matter to the claims checked
  here.
* Python `float` fields are modelled as rationals, `int` fields as integers.
* A Python function whose body is only comments and `pass` returns `None`;
  such functions are modelled as returning `Option.none`.
* The `OptimizationEngine` object state (its `self.solver`) is threaded
  explicitly, so that statements about mutation and purity are expressible.
* A Python call that raises is modelled with `Except`, with the exception
  class recorded in `PyError`.

The theorems then settle the specification's claims about conflict
detection, scheduling, the objective function and the data-model
invariants against these definitions.
-/

namespace TrainControl

/-! ## Data model (src/models.py)

`Train.train_type` is the string value of the `TrainType` enum
("express", "local", "freight", "maintenance", "special") and
`Train.priority` the integer value of the `TrainPriority` enum
(1 = HIGHEST .. 5 = LOWEST). -/

structure Train where
  train_id : String
  train_type : String
  priority : Nat
  current_position : String
  destination : String
  scheduled_arrival : Nat
  actual_arrival : Option Nat
  delay : Int
  speed : Rat
  length : Rat
deriving DecidableEq

structure Section where
  section_id : String
  start_point : String
  end_point : String
  length : Rat
  max_speed : Rat
  capacity : Int
  signal_positions : List Rat
  gradient : Rat
deriving DecidableEq

/-- Movement record of `src/models.py`. The source field holding the
section is named `section`, a Lean keyword, hence the quoted name.
`status` is a plain string in the source: the pydantic model declares
`status: str` with no validator, so no enumeration is enforced. -/
structure TrainMovement where
  train : Train
  «section» : Section
  entry_time : Nat
  exit_time : Nat
  planned_speed : Rat
  actual_speed : Option Rat
  status : String
deriving DecidableEq

/-! ## Configuration (src/config.py) -/

structure Settings where
  API_V1_STR : String
  PROJECT_NAME : String
  DATABASE_URL : String
  MAX_TRAINS : Nat
  MAX_SECTIONS : Nat
  TIME_WINDOW : Nat
  SAFETY_BUFFER : Nat
  MIN_STOPPING_TIME : Nat
  MAX_DELAY_THRESHOLD : Nat
  PREDICTION_HORIZON : Nat
  MODEL_UPDATE_FREQUENCY : Nat

/-- Default settings instance built at module import, mirroring the field
defaults of `Settings` in `src/config.py` (`SAFETY_BUFFER = 300` seconds). -/
def settings : Settings where
  API_V1_STR := "/api/v1"
  PROJECT_NAME := "Train Traffic Control System"
  DATABASE_URL := "sqlite:///./train_traffic.db"
  MAX_TRAINS := 100
  MAX_SECTIONS := 50
  TIME_WINDOW := 24
  SAFETY_BUFFER := 300
  MIN_STOPPING_TIME := 60
  MAX_DELAY_THRESHOLD := 1800
  PREDICTION_HORIZON := 3600
  MODEL_UPDATE_FREQUENCY := 3600

/-! ## Optimization engine (src/optimization.py) -/

/-- Observable state of an `OptimizationEngine` object: `__init__` stores a
`pywrapcp.Solver('TrainTrafficOptimizer')` in `self.solver`; none of the
reachable code ever registers anything in it (the only `IntVar` creation
raises before the constructor is applied, see `optimize_schedule`), so the
state is captured by the solver's construction name. -/
structure OptimizationEngine where
  solverName : String
deriving DecidableEq

/-- Engine state produced by `OptimizationEngine.__init__`. -/
def engine0 : OptimizationEngine where
  solverName := "TrainTrafficOptimizer"

/-- Embedding of `OptimizationEngine._check_conflict`. The Python body is a
docstring, four comment lines and `pass`, so the call returns `None`
(despite the `-> bool` annotation); `Option.none` models that `None`. -/
def _check_conflict (movement1 movement2 : TrainMovement) : Option Bool :=
  none

/-- Python truthiness of the `_check_conflict` result as used in the
`if self._check_conflict(mov1, mov2):` test: `None` is falsy, a boolean is
its own truth value. -/
def isTruthy : Option Bool → Bool
  | none => false
  | some b => b

/-- Nested loop of `detect_conflicts`: for each `mov1` at index `i`, every
`mov2` in `movements[i+1:]` with a truthy `_check_conflict(mov1, mov2)`
contributes the pair `(mov1, mov2)`, in loop order. -/
def conflictScan : List TrainMovement → List (TrainMovement × TrainMovement)
  | [] => []
  | mov1 :: rest =>
      ((rest.filter fun mov2 => isTruthy (_check_conflict mov1 mov2)).map
        fun mov2 => (mov1, mov2)) ++ conflictScan rest

/-- Embedding of `OptimizationEngine.detect_conflicts`. The method builds a
local `conflicts` list from the pairwise scan and returns it; `self` is
returned alongside to make the (absence of) state mutation explicit. -/
def detect_conflicts (self : OptimizationEngine) (movements : List TrainMovement) :
    List (TrainMovement × TrainMovement) × OptimizationEngine :=
  (conflictScan movements, self)

/-- Embedding of `OptimizationEngine.create_time_space_grid`: the method
computes `num_sections = len(sections)` and returns
`np.zeros((time_window, num_sections))`, a `time_window × num_sections`
matrix of float zeros. -/
def create_time_space_grid (self : OptimizationEngine) (sections : List Section)
    (time_window : Nat) : List (List Rat) :=
  let num_sections := sections.length
  List.replicate time_window (List.replicate num_sections 0)

/-- Embedding of `OptimizationEngine._create_time_matrix`: the body is a
docstring and `pass`, so the call returns `None` despite the `np.ndarray`
annotation. -/
def _create_time_matrix (trains : List Train) (sections : List Section) :
    Option (List (List Rat)) :=
  none

/-- Embedding of `OptimizationEngine._create_constraints`: body is a
docstring and `pass`, so the call returns `None` despite the `Dict`
annotation. -/
def _create_constraints (trains : List Train) (sections : List Section) :
    Option (List (String × String)) :=
  none

/-- Embedding of `OptimizationEngine._create_movement_schedule`: body is a
docstring and `pass`, so the call returns `None` despite the
`List[TrainMovement]` annotation. (It is in fact unreachable: every call of
`optimize_schedule` raises earlier.) -/
def _create_movement_schedule (solution : Option Nat) (trains : List Train)
    (sections : List Section) : Option (List TrainMovement) :=
  none

/-- Exception classes the embedded `optimize_schedule` can raise. The
source defines no exception class of its own (in particular no
`InvalidInputError`); the only exceptions reachable are Python built-ins. -/
inductive PyError where
  | attributeError (msg : String)
  | typeError (msg : String)
deriving DecidableEq

/-- Embedding of `OptimizationEngine.optimize_schedule`. Tracing the Python
body: `time_matrix = self._create_time_matrix(...)` is `None` and
`constraints = self._create_constraints(...)` is `None`. The variable loop
`for train in trains: for section in sections:` evaluates
`time_matrix.shape[0]` on its first iteration, raising `AttributeError`
whenever both lists are nonempty. Otherwise the loop builds an empty
`variables` dict, the `_add_*` stubs do nothing, and
`objective = self.solver.Minimize(sum(...))` raises `TypeError`:
`pywrapcp.Solver.Minimize(var, step)` takes two arguments and is given one.
So every call raises before any solving or materialization, and `self` is
never mutated (the failing `IntVar` call raises while evaluating its
arguments, before registering anything). -/
def optimize_schedule (self : OptimizationEngine) (trains : List Train)
    (sections : List Section) (current_movements : List TrainMovement) :
    Except PyError (List TrainMovement) × OptimizationEngine :=
  let _time_matrix := _create_time_matrix trains sections
  let _constraints := _create_constraints trains sections
  if trains.isEmpty || sections.isEmpty then
    (Except.error (PyError.typeError "Solver.Minimize() takes exactly 2 arguments (1 given)"),
      self)
  else
    (Except.error (PyError.attributeError "'NoneType' object has no attribute 'shape'"),
      self)

/-! ## Concrete fixtures

Values in the shape of the repository's own test fixtures
(`tests/test_system.py`), specialised per scenario. -/

/-- Express train fixture (priority 2 = HIGH, as in the test fixture). -/
def trainA : Train where
  train_id := "TR001"
  train_type := "express"
  priority := 2
  current_position := "A"
  destination := "B"
  scheduled_arrival := 7200
  actual_arrival := none
  delay := 0
  speed := 120
  length := 200

/-- Second train, distinct id, otherwise like `trainA`. -/
def trainB : Train where
  train_id := "TR002"
  train_type := "local"
  priority := 3
  current_position := "A"
  destination := "B"
  scheduled_arrival := 7200
  actual_arrival := none
  delay := 0
  speed := 100
  length := 180

/-- Third train, distinct id. -/
def trainC : Train where
  train_id := "TR003"
  train_type := "freight"
  priority := 4
  current_position := "A"
  destination := "B"
  scheduled_arrival := 9000
  actual_arrival := none
  delay := 0
  speed := 80
  length := 400

/-- Highest-urgency train carrying 1000 seconds of accumulated delay. -/
def trainDelayed : Train where
  train_id := "TR010"
  train_type := "express"
  priority := 1
  current_position := "A"
  destination := "B"
  scheduled_arrival := 3600
  actual_arrival := none
  delay := 1000
  speed := 120
  length := 200

/-- Single-track section: capacity 1. -/
def secCap1 : Section where
  section_id := "SEC001"
  start_point := "A"
  end_point := "B"
  length := 50
  max_speed := 160
  capacity := 1
  signal_positions := [10, 25, 40]
  gradient := 1 / 2

/-- Double-track section: capacity 2. -/
def secCap2 : Section where
  section_id := "SEC002"
  start_point := "B"
  end_point := "C"
  length := 40
  max_speed := 140
  capacity := 2
  signal_positions := [15, 30]
  gradient := 0

/-- Slow section with a 100 km/h speed limit. -/
def secSlow : Section where
  section_id := "SEC003"
  start_point := "C"
  end_point := "D"
  length := 20
  max_speed := 100
  capacity := 3
  signal_positions := [8]
  gradient := 1

/-- Movement of `trainA` occupying the capacity-1 section during [0, 600]. -/
def movA : TrainMovement where
  train := trainA
  «section» := secCap1
  entry_time := 0
  exit_time := 600
  planned_speed := 100
  actual_speed := none
  status := "scheduled"

/-- Movement of `trainB` occupying the same capacity-1 section during
[100, 700]: it overlaps `movA` outright, a fortiori after expanding both
intervals by the 300-second safety buffer. -/
def movB : TrainMovement where
  train := trainB
  «section» := secCap1
  entry_time := 100
  exit_time := 700
  planned_speed := 90
  actual_speed := none
  status := "scheduled"

/-- First of three movements jointly occupying the capacity-2 section at
instant 300. -/
def movC1 : TrainMovement where
  train := trainA
  «section» := secCap2
  entry_time := 0
  exit_time := 1000
  planned_speed := 100
  actual_speed := none
  status := "scheduled"

/-- Second of the three capacity-2 movements. -/
def movC2 : TrainMovement where
  train := trainB
  «section» := secCap2
  entry_time := 100
  exit_time := 1100
  planned_speed := 90
  actual_speed := none
  status := "scheduled"

/-- Third of the three capacity-2 movements. -/
def movC3 : TrainMovement where
  train := trainC
  «section» := secCap2
  entry_time := 200
  exit_time := 1200
  planned_speed := 70
  actual_speed := none
  status := "scheduled"

/-- Malformed pre-existing movement: `entry_time` (500) exceeds its
`exit_time` (400). -/
def movBadTimes : TrainMovement where
  train := trainA
  «section» := secCap1
  entry_time := 500
  exit_time := 400
  planned_speed := 100
  actual_speed := none
  status := "scheduled"

/-- Movement violating every documented Movement invariant at once:
`entry_time` (1000) is not below `exit_time` (500), `planned_speed` (200)
exceeds the section's `max_speed` (100), and `status` is outside the
documented enumeration. -/
def movInvalid : TrainMovement where
  train := trainA
  «section» := secSlow
  entry_time := 1000
  exit_time := 500
  planned_speed := 200
  actual_speed := none
  status := "cancelled"

/-! ## Objective function

The `variables` dict of `optimize_schedule` maps each
`(train.train_id, section.section_id)` pair to an entry-time variable, and
the objective passed to `Minimize` is `sum(variables[k] for k in variables)`. -/

/-- Value of the code's objective expression under an assignment `a` of a
natural-number entry time to each `(train_id, section_id)` key: the plain,
unweighted sum over all pairs, in the dict's insertion order. -/
def codeObjective (trains : List Train) (sections : List Section)
    (a : String × String → Nat) : Nat :=
  (trains.map fun t => (sections.map fun s => a (t.train_id, s.section_id)).sum).sum

/-- Modelled from the spec: the claimed objective form
Σ priority_weight(train) × delay(train) + λ × total_travel_time, with
weight function `w` over the priority ordinal, trade-off constant `lam`,
and the schedule's total travel time passed in as `travel`. `delay(train)`
is the model's delay field (accumulated delay in seconds), the only delay
in the code's data model. Used solely to compare the code's objective with
the claimed form. -/
def specObjectiveForm (w : Nat → Rat) (lam : Rat) (trains : List Train)
    (travel : Rat) : Rat :=
  (trains.map fun t => w t.priority * (t.delay : Rat)).sum + lam * travel

/-! ## Theorems settling the claims -/

/-- C9: for every input movement list, `detect_conflicts` returns the empty
conflict list, because the pairwise helper `_check_conflict` returns `None`
(falsy) for every pair of movements. -/
theorem detect_conflicts_always_empty :
    (∀ m1 m2 : TrainMovement, _check_conflict m1 m2 = none) ∧
      ∀ (e : OptimizationEngine) (ms : List TrainMovement),
        (detect_conflicts e ms).1 = [] := by
  refine ⟨fun _ _ => rfl, fun e ms => ?_⟩
  show conflictScan ms = []
  induction ms with
  | nil => rfl
  | cons m rest ih => simp [conflictScan, isTruthy, _check_conflict, ih]

/-- C8: `detect_conflicts` is pure: it returns the engine state unchanged,
and its conflict list depends only on the movement list, not on the engine
state, so two calls with the same movement list return the same result and
leave all engine state as it was. -/
theorem detect_conflicts_pure :
    ∀ (e : OptimizationEngine) (ms : List TrainMovement),
      (detect_conflicts e ms).2 = e ∧
        ∀ e2 : OptimizationEngine,
          (detect_conflicts e ms).1 = (detect_conflicts e2 ms).1 :=
  fun _ _ => ⟨rfl, fun _ => rfl⟩

/-- C10: for every section list and time window, `create_time_space_grid`
returns a `time_window × (number of sections)` matrix whose entries are all
zero; the function takes no trains or movements, so the grid never reflects
occupancy. -/
theorem create_time_space_grid_all_zero :
    ∀ (e : OptimizationEngine) (sections : List Section) (tw : Nat),
      (create_time_space_grid e sections tw).length = tw ∧
        ((create_time_space_grid e sections tw).all fun row =>
          row.length == sections.length && row.all fun x => x == 0) = true := by
  intro e sections tw
  constructor
  · simp [create_time_space_grid]
  · simp only [create_time_space_grid, List.all_eq_true]
    intro row hrow
    rw [List.eq_of_mem_replicate hrow]
    simp [List.all_eq_true, List.mem_replicate]

/-- C1: two movements on the same capacity-1 section whose occupancy
intervals overlap outright (hence certainly once each is expanded by the
configured 300-second safety buffer) are a conflict by the specification,
yet `detect_conflicts` reports nothing for them. -/
theorem stub_detector_misses_buffer_overlap :
    movA.«section» = movB.«section» ∧
      movA.«section».capacity = 1 ∧
      movB.entry_time < movA.exit_time + settings.SAFETY_BUFFER ∧
      movA.entry_time < movB.exit_time + settings.SAFETY_BUFFER ∧
      (detect_conflicts engine0 [movA, movB]).1 = [] :=
  ⟨rfl, rfl, by decide, by decide, rfl⟩

/-- C2: three movements that are all simultaneously active at instant 300
on one capacity-2 section exceed that capacity by the specification, yet
`detect_conflicts` reports nothing for them. -/
theorem stub_detector_misses_capacity_overflow :
    movC1.«section» = secCap2 ∧ movC2.«section» = secCap2 ∧
      movC3.«section» = secCap2 ∧ secCap2.capacity = 2 ∧
      (movC1.entry_time ≤ 300 ∧ 300 < movC1.exit_time) ∧
      (movC2.entry_time ≤ 300 ∧ 300 < movC2.exit_time) ∧
      (movC3.entry_time ≤ 300 ∧ 300 < movC3.exit_time) ∧
      (detect_conflicts engine0 [movC1, movC2, movC3]).1 = [] :=
  ⟨rfl, rfl, rfl, rfl, by decide, by decide, by decide, rfl⟩

/-- C3: on a one-train, one-section input `optimize_schedule` raises an
`AttributeError` instead of returning a schedule (so no returned movement
list ever reaches the detector), and `_create_movement_schedule`, the
materializer that the claim says re-validates its output, is a stub
returning `None` that runs no detector at all. -/
theorem optimize_schedule_raises_and_materializer_is_stub :
    (optimize_schedule engine0 [trainA] [secCap1] []).1 =
        Except.error
          (PyError.attributeError "'NoneType' object has no attribute 'shape'") ∧
      _create_movement_schedule none [trainA] [secCap1] = none :=
  ⟨rfl, rfl⟩

/-- C4: a scheduling request carrying a malformed pre-existing movement
(`entry_time` 500 ≥ `exit_time` 400) is not rejected by any validation:
`optimize_schedule` raises the stub-induced `AttributeError`, and the code
defines no `InvalidInputError` at all (see `PyError`). -/
theorem malformed_movement_gets_no_validation_error :
    movBadTimes.exit_time < movBadTimes.entry_time ∧
      (optimize_schedule engine0 [trainA] [secCap1] [movBadTimes]).1 =
        Except.error
          (PyError.attributeError "'NoneType' object has no attribute 'shape'") :=
  ⟨by decide, rfl⟩

/-- C5: for every input, `optimize_schedule` raises an exception; it never
returns any schedule, so in particular it never returns a best-so-far
assignment flagged as degraded, and no time or iteration budget exists in
the code. -/
theorem optimize_schedule_always_raises :
    ∀ (e : OptimizationEngine) (trains : List Train) (sections : List Section)
      (ms : List TrainMovement),
      ∃ err : PyError, (optimize_schedule e trains sections ms).1 = Except.error err := by
  intro e trains sections ms
  cases h : trains.isEmpty || sections.isEmpty with
  | true =>
      refine ⟨PyError.typeError "Solver.Minimize() takes exactly 2 arguments (1 given)", ?_⟩
      simp [optimize_schedule, h]
  | false =>
      refine ⟨PyError.attributeError "'NoneType' object has no attribute 'shape'", ?_⟩
      simp [optimize_schedule, h]

/-- C6: the objective the code builds is not of the claimed form
Σ priority_weight(train) × delay(train) + λ × total_travel_time for any
nonnegative strictly priority-decreasing weight function, nonnegative λ
and nonnegative travel-time function: on a single delayed priority-1 train
with all entry times 0, the code's objective is 0 while every instance of
the claimed form is strictly positive. -/
theorem objective_not_priority_weighted :
    ¬ ∃ (w : Nat → Rat) (lam : Rat)
        (tf : List Train → List Section → (String × String → Nat) → Rat),
        (∀ p, 0 ≤ w p) ∧ (∀ p q : Nat, p < q → w q < w p) ∧ 0 ≤ lam ∧
          (∀ ts ss a, 0 ≤ tf ts ss a) ∧
          ∀ ts ss a,
            (codeObjective ts ss a : Rat) = specObjectiveForm w lam ts (tf ts ss a) := by
  rintro ⟨w, lam, tf, hw0, hdec, hlam, htf, heq⟩
  have h := heq [trainDelayed] [secCap1] fun _ => 0
  have hc : codeObjective [trainDelayed] [secCap1] (fun _ => 0) = 0 := rfl
  rw [hc, Nat.cast_zero] at h
  have hs : specObjectiveForm w lam [trainDelayed]
      (tf [trainDelayed] [secCap1] fun _ => 0) =
      w 1 * 1000 + lam * tf [trainDelayed] [secCap1] fun _ => 0 := by
    norm_num [specObjectiveForm, trainDelayed]
  rw [hs] at h
  have h1 : w 2 < w 1 := hdec 1 2 (by norm_num)
  have h3 : (0 : Rat) < w 1 := lt_of_le_of_lt (hw0 2) h1
  have h4 : (0 : Rat) ≤ lam * tf [trainDelayed] [secCap1] fun _ => 0 :=
    mul_nonneg hlam (htf _ _ _)
  have h5 : (0 : Rat) < w 1 * 1000 := mul_pos h3 (by norm_num)
  linarith

/-- C6 (amended): the objective the code minimizes is the unweighted sum of
the entry-time variables over all (train, section) pairs; it reads nothing
of a train but its id, so changing every train's priority, delay, or any
other non-id field leaves it unchanged. -/
theorem objective_ignores_priority_and_delay :
    ∀ (trains : List Train) (sections : List Section) (a : String × String → Nat)
      (f : Train → Train), (∀ t, (f t).train_id = t.train_id) →
      codeObjective (trains.map f) sections a = codeObjective trains sections a := by
  intro trains sections a f hf
  induction trains with
  | nil => rfl
  | cons t rest ih =>
      simp only [List.map_cons, codeObjective, List.sum_cons] at ih ⊢
      rw [hf t, ih]

/-- Concrete instance of `objective_ignores_priority_and_delay`: demoting
`trainA` to priority 5 with 777 seconds of delay leaves the code's
objective value unchanged. -/
theorem objective_ignores_priority_and_delay_witness :
    codeObjective ([trainA].map fun t => { t with priority := 5, delay := 777 })
        [secCap1] (fun _ => 7) =
      codeObjective [trainA] [secCap1] fun _ => 7 :=
  objective_ignores_priority_and_delay [trainA] [secCap1] (fun _ => 7)
    (fun t => { t with priority := 5, delay := 777 }) fun _ => rfl

/-- C7: `movInvalid` is a representable movement value with
`entry_time ≥ exit_time`, `planned_speed` above its section's `max_speed`
and a status outside the documented enumeration, and the engine accepts it:
`detect_conflicts` processes it without any error or report. -/
theorem movement_invariants_violated_value_accepted :
    ¬ movInvalid.entry_time < movInvalid.exit_time ∧
      ¬ movInvalid.planned_speed ≤ movInvalid.«section».max_speed ∧
      movInvalid.status ∉ (["Scheduled", "InProgress", "Completed", "Conflicted",
        "scheduled", "in_progress", "completed", "conflicted"] : List String) ∧
      (detect_conflicts engine0 [movInvalid]).1 = [] := by
  refine ⟨by decide, ?_, by decide, rfl⟩
  norm_num [movInvalid, secSlow]

/-- C7 (amended): the Movement model enforces only field types: every
well-typed combination of train, section, times, speeds and status string —
ordered or not, within the speed limit or not, in the status enumeration or
not — is representable as a `TrainMovement`, and `detect_conflicts`
processes it without error or report. -/
theorem movement_any_typed_fields_accepted :
    ∀ (t : Train) (s : Section) (e1 e2 : Nat) (ps : Rat) (sp : Option Rat)
      (st : String),
      ∃ m : TrainMovement, m.train = t ∧ m.«section» = s ∧ m.entry_time = e1 ∧
        m.exit_time = e2 ∧ m.planned_speed = ps ∧ m.actual_speed = sp ∧
        m.status = st ∧ (detect_conflicts engine0 [m]).1 = [] :=
  fun t s e1 e2 ps sp st =>
    ⟨⟨t, s, e1, e2, ps, sp, st⟩, rfl, rfl, rfl, rfl, rfl, rfl, rfl, rfl⟩

end TrainControl
